import Mathlib

/-!
Shallow embedding of `src/utils/json_serializer.rs` from the
ffplayout-engine playlist acquisition core, together with proofs of the
specification's claims about it.

Conventions of the embedding:
* Rust `f64` timing values are modelled as `ℚ`; the code only adds and
  subtracts them, so the claims' arithmetic is exactly mirrored.
* The side-effecting collaborators of `read_json` (filesystem tests, the
  HTTP client, JSON parsing, `get_date`, `modified_time`, `is_remote`)
  are gathered in an explicit environment record `Env`.
* Rust panics (`unwrap` / `expect`) are modelled as `Except.error`;
  a normal return is `Except.ok`.
* `thread::spawn(... validate_playlist(list_clone, ...))` is modelled by
  recording the value handed to the spawned validator in the `spawned`
  field of the result, so spawn-count and hand-off claims are statable.
-/

/-- Media item: fields of `Media` that `json_serializer.rs` touches
(`begin`, `index`, `seek`, `out`, `duration`, `source`, and the four
scheduling annotations). -/
structure Media where
  begin : Option ℚ
  index : Option Nat
  seek : ℚ
  out : ℚ
  duration : ℚ
  source : String
  last_ad : Option Bool
  next_ad : Option Bool
  process : Option Bool
  filter : Option (List String)
  deriving Repr, DecidableEq

/-- Modelled from the spec: `Media::new` is defined outside the provided
source file (only its call in `Playlist::new` is in scope).  The spec
(§4.2) fixes what the filler item must carry: `seek = 0` and no payload
identifier; the remaining defaults are left at neutral values and the
theorems about the filler only rely on the fields `Playlist::new`
overrides plus `seek`. -/
def Media.new (index : Nat) (src : String) (_doProbe : Bool) : Media :=
  { begin := none
    index := some index
    seek := 0
    out := 0
    duration := 0
    source := src
    last_ad := none
    next_ad := none
    process := none
    filter := none }

/-- `pub const DUMMY_LEN: f64 = 60.0;` -/
def DUMMY_LEN : ℚ := 60

/-- The `Playlist` struct (the spec's "Schedule"): `start_sec` is the
spec's `start_offset`, `current_file` its `source_identifier`,
`modified` its `last_modified`, `program` its `items`. -/
structure Playlist where
  date : String
  start_sec : Option ℚ
  current_file : Option String
  modified : Option String
  program : List Media
  deriving Repr, DecidableEq

/-- `Playlist::new(date, start)`: the filler ("dummy") schedule. -/
def Playlist.new (date : String) (start : ℚ) : Playlist :=
  let media := Media.new 0 "" false
  let media := { media with begin := some start, duration := DUMMY_LEN, out := DUMMY_LEN }
  { date := date
    start_sec := some start
    current_file := none
    modified := some ""
    program := [media] }

/-- `config.playlist`: the two configuration fields `read_json` reads. -/
structure PlaylistConfig where
  path : String
  start_sec : Option ℚ
  deriving Repr

/-- `GlobalConfig`, restricted to the surface `read_json` consumes. -/
structure GlobalConfig where
  playlist : PlaylistConfig
  deriving Repr

/-- A `reqwest` response as far as `read_json` inspects it: success
status, body text, and the optional `Last-Modified` header.  `body`
models `resp.text()`, a `Result` that can fail while reading the body
(`unwrap`ped at lines 89 and 103); `lastModified` is `none` when the
header is absent, and otherwise carries the `t.to_str()` `Result`
(`unwrap`ped at line 96). -/
structure HttpResponse where
  isSuccess : Bool
  body : Except String String
  lastModified : Option (Except String String)
  deriving Repr

/-- Environment of side-effecting collaborators consumed by `read_json`.
`httpGet` is `Except.error` on transport failure; `openRead` is `none`
when the file cannot be opened; `parsePlaylist` is `none` when
`serde_json` fails. -/
structure Env where
  isDir : String → Bool
  isFile : String → Bool
  isRemote : String → Bool
  httpGet : String → Except String HttpResponse
  openRead : String → Option String
  parsePlaylist : String → Option Playlist
  modifiedTime : String → Option String
  getDate : Bool → ℚ → ℚ → String

/-- Embedding of Rust `str::split('-')` on the character list: `"a-b"`
splits to `["a","b"]`, the empty string to `[""]`. -/
def splitOnChar (sep : Char) : List Char → List (List Char)
  | [] => [[]]
  | c :: rest =>
    let r := splitOnChar sep rest
    if c = sep then [] :: r
    else (c :: r.headD []) :: r.tail

/-- Embedding of `PathBuf::join` for relative components: append a `/`
separator unless one is already present (or the base is empty). -/
def pathJoin (a b : String) : String :=
  if a.data = [] then b
  else if a.data.getLast? = some '/' then ⟨a.data ++ b.data⟩
  else ⟨a.data ++ '/' :: b.data⟩

/-- Helper for `withExtension`: given the reversed character list of a
path, return the reversed characters up to (and excluding) the dot of
the final component's extension, or `none` when the final component has
no extension (no dot, or only a leading dot). -/
def findStemRev : List Char → Option (List Char)
  | [] => none
  | c :: rest =>
    if c = '/' then none
    else if c = '.' then
      match rest with
      | [] => none
      | r :: _ => if r = '/' then none else some rest
    else findStemRev rest

/-- Embedding of `Path::with_extension`: replace (or add) the extension
of the final path component. -/
def withExtension (p ext : String) : String :=
  let base :=
    match findStemRev p.data.reverse with
    | some revStem => revStem.reverse
    | none => p.data
  if ext.data = [] then ⟨base⟩ else ⟨base ++ '.' :: ext.data⟩

/-- Lines 62-69 of `read_json`: when the configured playlist path is a
directory, split the date on `-` and build `root/year/month/date.json`.
Indexing `d[1]` panics when the date has no `-`. -/
def resolveLocalPath (root date : String) : Except String String :=
  let d := splitOnChar '-' date.data
  if 2 ≤ d.length then
    Except.ok
      (withExtension
        (pathJoin (pathJoin (pathJoin root ⟨d.getD 0 []⟩) ⟨d.getD 1 []⟩) date) "json")
  else Except.error "index out of bounds"

/-- Lines 58-76 of `read_json`: compute `current_file` from the config
path, the date, and the optional caller-supplied override.  The
directory/date composition runs (and can panic) before the override is
consulted, as in the source. -/
def resolveSource (env : Env) (config : GlobalConfig) (path : Option String)
    (date : String) : Except String String :=
  match (if env.isDir config.playlist.path then
           resolveLocalPath config.playlist.path date
         else Except.ok config.playlist.path) with
  | Except.error e => Except.error e
  | Except.ok base => Except.ok (path.getD base)

/-- Loop body of the annotation pass (lines 143-148): overwrite the six
annotated fields of one item. -/
def annotSet (m : Media) (b : ℚ) (i : Nat) : Media :=
  { m with
    begin := some b
    index := some i
    last_ad := some false
    next_ad := some false
    process := some true
    filter := some [] }

/-- The annotation loop of `read_json` (lines 142-151): a single forward
pass carrying the running offset `s` (advanced by `out - seek`) and the
position `k`. -/
def annotateFrom (s : ℚ) (k : Nat) : List Media → List Media
  | [] => []
  | m :: rest => annotSet m s k :: annotateFrom (s + (m.out - m.seek)) (k + 1) rest

/-- Lines 133-135 of `read_json`: when a local modification timestamp
is available, store it in `modified`; otherwise leave the playlist
unchanged. -/
def applyModified (pl : Playlist) (t? : Option String) : Playlist :=
  match t? with
  | some t => { pl with modified := some t }
  | none => pl

/-- Lines 94-99 of `read_json`: when the `Last-Modified` header is
present, its value goes through `to_str().unwrap()` — a panic site when
the conversion fails — and is stored in `modified`; an absent header
leaves the playlist unchanged. -/
def applyHeaderModified (pl : Playlist) (t? : Option (Except String String)) :
    Except String Playlist :=
  match t? with
  | some (Except.ok t) => Except.ok { pl with modified := some t }
  | some (Except.error _) => Except.error "called Result.unwrap on an Err value"
  | none => Except.ok pl

/-- Result of one `read_json` call: the returned playlist plus the list
of playlist values handed to spawned `validate_playlist` tasks. -/
structure ReadResult where
  playlist : Playlist
  spawned : List Playlist
  deriving Repr, DecidableEq

/-- Lines 138-157 of `read_json`: the common tail of both successful
branches.  Sets `current_file` and `start_sec`, runs the annotation
loop, clones the playlist for the spawned validator, and returns. -/
def finish (pl : Playlist) (current_file : String) (start0 : ℚ) : ReadResult :=
  let pl1 := { pl with current_file := some current_file, start_sec := some start0 }
  let pl2 := { pl1 with program := annotateFrom start0 0 pl1.program }
  { playlist := pl2, spawned := [pl2] }

/-- Embedding of `read_json` (lines 50-158).  `Except.error` models a
panic (`unwrap`/`expect`); every non-panicking path is `Except.ok`. -/
def read_json (env : Env) (config : GlobalConfig) (path : Option String)
    (seek : Bool) (next_start : ℚ) : Except String ReadResult :=
  match config.playlist.start_sec with
  | none => Except.error "called Option.unwrap on a None value"
  | some start0 =>
    let date := env.getDate seek start0 next_start
    match resolveSource env config path date with
    | Except.error e => Except.error e
    | Except.ok current_file =>
      if env.isRemote current_file then
        match env.httpGet current_file with
        | Except.ok resp =>
          if resp.isSuccess then
            match resp.body with
            | Except.error _ => Except.error "called Result.unwrap on an Err value"
            | Except.ok body =>
              match env.parsePlaylist body with
              | some pl =>
                match applyHeaderModified pl resp.lastModified with
                | Except.error e => Except.error e
                | Except.ok pl1 => Except.ok (finish pl1 current_file start0)
              | none => Except.error "Could not read json playlist str."
          else
            match resp.body with
            | Except.error _ => Except.error "called Result.unwrap on an Err value"
            | Except.ok _ =>
              Except.ok { playlist := Playlist.new date start0, spawned := [] }
        | Except.error _ =>
          Except.ok { playlist := Playlist.new date start0, spawned := [] }
      else
        if env.isFile current_file then
          match env.openRead current_file with
          | none => Except.error "Could not open json playlist file."
          | some contents =>
            match env.parsePlaylist contents with
            | some pl =>
              Except.ok (finish (applyModified pl (env.modifiedTime current_file)) current_file start0)
            | none => Except.error "Could not read json playlist file."
        else Except.ok { playlist := Playlist.new date start0, spawned := [] }

/-! ## Properties of the annotation pass -/

/-- Sum of effective played durations `out - seek` over a list of items:
the running-offset advance of the annotation loop. -/
def offsetSum : List Media → ℚ
  | [] => 0
  | m :: rest => (m.out - m.seek) + offsetSum rest

theorem length_annotateFrom (s : ℚ) (k : Nat) (l : List Media) :
    (annotateFrom s k l).length = l.length := by
  induction l generalizing s k with
  | nil => rfl
  | cons m rest ih => simp [annotateFrom, ih]

theorem offsetSum_take_succ (l : List Media) (i : Nat) (h : i < l.length) :
    offsetSum (l.take (i + 1)) =
      offsetSum (l.take i) + ((l.get ⟨i, h⟩).out - (l.get ⟨i, h⟩).seek) := by
  induction l generalizing i with
  | nil => exact absurd h (by simp)
  | cons m rest ih =>
    cases i with
    | zero => simp [offsetSum]
    | succ j =>
      have hj : j < rest.length := Nat.lt_of_succ_lt_succ h
      simp only [List.take_succ_cons, offsetSum, List.get_cons_succ]
      rw [ih j hj, add_assoc]

theorem annotateFrom_get (l : List Media) (s : ℚ) (k i : Nat) (h : i < l.length) :
    (annotateFrom s k l).get ⟨i, by rw [length_annotateFrom]; exact h⟩ =
      annotSet (l.get ⟨i, h⟩) (s + offsetSum (l.take i)) (k + i) := by
  induction l generalizing s k i with
  | nil => exact absurd h (by simp)
  | cons m rest ih =>
    cases i with
    | zero => simp [annotateFrom, offsetSum]
    | succ j =>
      have hj : j < rest.length := Nat.lt_of_succ_lt_succ h
      have ih' := ih (s + (m.out - m.seek)) (k + 1) j hj
      simp only [annotateFrom, List.get_cons_succ, List.take_succ_cons, offsetSum]
      rw [ih']
      congr 1
      · ring
      · omega

theorem annotateFrom_get? (l : List Media) (s : ℚ) (i : Nat) (h : i < l.length) :
    (annotateFrom s 0 l).get? i =
      some (annotSet (l.get ⟨i, h⟩) (s + offsetSum (l.take i)) i) := by
  have hl : i < (annotateFrom s 0 l).length := by rw [length_annotateFrom]; exact h
  rw [List.get?_eq_get hl, annotateFrom_get l s 0 i h]
  simp

theorem annotateFrom_get?_lt (l : List Media) (s : ℚ) (i : Nat) (m : Media)
    (hm : (annotateFrom s 0 l).get? i = some m) : i < l.length := by
  have := List.get?_eq_some.mp hm
  obtain ⟨hl, -⟩ := this
  rwa [length_annotateFrom] at hl

/-- C1: for a loaded schedule with initial offset `S`, after the
annotation pass of `read_json`: item 0 begins at `S`; every item's
`index` equals its position; and each item `i+1` begins at item `i`'s
`begin` plus item `i`'s `out - seek`. -/
theorem annotation_begin_index_recurrence (S : ℚ) (items : List Media) :
    (∀ m, (annotateFrom S 0 items).get? 0 = some m → m.begin = some S) ∧
    (∀ i m, (annotateFrom S 0 items).get? i = some m → m.index = some i) ∧
    (∀ i mi mj b,
      (annotateFrom S 0 items).get? i = some mi →
      (annotateFrom S 0 items).get? (i + 1) = some mj →
      mi.begin = some b →
      mj.begin = some (b + (mi.out - mi.seek))) := by
  refine ⟨?_, ?_, ?_⟩
  · intro m hm
    have h0 : 0 < items.length := annotateFrom_get?_lt items S 0 m hm
    rw [annotateFrom_get? items S 0 h0] at hm
    have := Option.some.inj hm
    subst this
    simp [annotSet, offsetSum]
  · intro i m hm
    have hi : i < items.length := annotateFrom_get?_lt items S i m hm
    rw [annotateFrom_get? items S i hi] at hm
    have := Option.some.inj hm
    subst this
    simp [annotSet]
  · intro i mi mj b hmi hmj hb
    have hi : i < items.length := annotateFrom_get?_lt items S i mi hmi
    have hi1 : i + 1 < items.length := annotateFrom_get?_lt items S (i + 1) mj hmj
    rw [annotateFrom_get? items S i hi] at hmi
    rw [annotateFrom_get? items S (i + 1) hi1] at hmj
    have hmi' := Option.some.inj hmi
    have hmj' := Option.some.inj hmj
    subst hmi'
    subst hmj'
    simp only [annotSet] at hb ⊢
    have hb' := Option.some.inj hb
    rw [offsetSum_take_succ items i hi]
    rw [← hb']
    simp [add_assoc]

theorem annotateFrom_flags (s : ℚ) (k : Nat) (l : List Media) :
    ∀ m ∈ annotateFrom s k l,
      m.process = some true ∧ m.last_ad = some false ∧
      m.next_ad = some false ∧ m.filter = some [] := by
  induction l generalizing s k with
  | nil => intro m hm; simp [annotateFrom] at hm
  | cons hd tl ih =>
    intro m hm
    rcases (by simpa [annotateFrom] using hm :
        m = annotSet hd s k ∨ m ∈ annotateFrom (s + (hd.out - hd.seek)) (k + 1) tl) with h | h
    · subst h; simp [annotSet]
    · exact ih (s + (hd.out - hd.seek)) (k + 1) m h

/-- C4: after the annotation pass, every item has `process = true`,
`last_ad = false`, `next_ad = false` and `filter = []`, regardless of
the values those fields held before annotation. -/
theorem annotation_resets_flags (S : ℚ) (items : List Media) :
    ∀ m ∈ annotateFrom S 0 items,
      m.process = some true ∧ m.last_ad = some false ∧
      m.next_ad = some false ∧ m.filter = some [] :=
  annotateFrom_flags S 0 items

/-- Concrete media items used by the witnesses: arbitrary prior field
values, including flags deliberately set contrary to the annotation. -/
def mSampleA : Media :=
  { begin := some 99, index := some 42, seek := 1, out := 3, duration := 4,
    source := "a.mp4", last_ad := some true, next_ad := some true,
    process := some false, filter := some ["x"] }

def mSampleB : Media :=
  { begin := none, index := none, seek := 0, out := 7, duration := 7,
    source := "b.mp4", last_ad := none, next_ad := none,
    process := none, filter := none }

theorem annotation_begin_index_recurrence_witness :
    (annotSet mSampleA 5 0).begin = some 5 ∧
    (annotSet mSampleA 5 0).index = some 0 ∧
    (annotSet mSampleB (5 + (mSampleA.out - mSampleA.seek)) 1).index = some 1 ∧
    (annotSet mSampleB (5 + (mSampleA.out - mSampleA.seek)) 1).begin =
      some (5 + ((annotSet mSampleA 5 0).out - (annotSet mSampleA 5 0).seek)) := by
  have h := annotation_begin_index_recurrence 5 [mSampleA, mSampleB]
  exact ⟨h.1 _ rfl, h.2.1 0 _ rfl, h.2.1 1 _ rfl, h.2.2 0 _ _ 5 rfl rfl rfl⟩

theorem annotation_resets_flags_witness :
    (annotSet mSampleA 5 0).process = some true ∧
    (annotSet mSampleA 5 0).last_ad = some false ∧
    (annotSet mSampleA 5 0).next_ad = some false ∧
    (annotSet mSampleA 5 0).filter = some [] :=
  annotation_resets_flags 5 [mSampleA, mSampleB] (annotSet mSampleA 5 0) (List.Mem.head _)

/-! ## Branch characterizations of `read_json` -/

theorem applyModified_program (pl : Playlist) (t? : Option String) :
    (applyModified pl t?).program = pl.program := by
  cases t? <;> rfl

/-- A missing local file and a transport-level GET failure make
`read_json` return the filler schedule unconditionally; a non-success
HTTP status does so provided the body read (`resp.text()`, evaluated for
the log line) succeeds.  No validator is spawned. -/
theorem read_json_fallback_eq (env : Env) (config : GlobalConfig) (path : Option String)
    (seek : Bool) (next_start : ℚ) (s : ℚ) (cf : String)
    (hs : config.playlist.start_sec = some s)
    (hcf : resolveSource env config path (env.getDate seek s next_start) = Except.ok cf)
    (habs : (env.isRemote cf = true ∧
               ((∃ e, env.httpGet cf = Except.error e) ∨
                (∃ resp body, env.httpGet cf = Except.ok resp ∧ resp.isSuccess = false ∧
                  resp.body = Except.ok body))) ∨
            (env.isRemote cf = false ∧ env.isFile cf = false)) :
    read_json env config path seek next_start =
      Except.ok { playlist := Playlist.new (env.getDate seek s next_start) s,
                  spawned := [] } := by
  rcases habs with ⟨hrem, herr | hstat⟩ | ⟨hrem, hfile⟩
  · obtain ⟨e, he⟩ := herr
    simp [read_json, hs, hcf, hrem, he]
  · obtain ⟨resp, body, hresp, hsucc, hbody⟩ := hstat
    simp [read_json, hs, hcf, hrem, hresp, hsucc, hbody]
  · simp [read_json, hs, hcf, hrem, hfile]

/-- Every `Except.ok` result of `read_json` is either the filler
schedule (no spawn) or `finish` of some parsed playlist. -/
theorem read_json_cases (env : Env) (config : GlobalConfig) (path : Option String)
    (seek : Bool) (next_start : ℚ) (s : ℚ) (cf : String) (r : ReadResult)
    (hs : config.playlist.start_sec = some s)
    (hcf : resolveSource env config path (env.getDate seek s next_start) = Except.ok cf)
    (hr : read_json env config path seek next_start = Except.ok r) :
    r = { playlist := Playlist.new (env.getDate seek s next_start) s, spawned := [] } ∨
    ∃ pl, r = finish pl cf s := by
  by_cases hrem : env.isRemote cf = true
  · cases hget : env.httpGet cf with
    | error e =>
      simp [read_json, hs, hcf, hrem, hget] at hr
      exact Or.inl hr.symm
    | ok resp =>
      by_cases hsucc : resp.isSuccess = true
      · cases hbody : resp.body with
        | error e => simp [read_json, hs, hcf, hrem, hget, hsucc, hbody] at hr
        | ok body =>
          cases hparse : env.parsePlaylist body with
          | none => simp [read_json, hs, hcf, hrem, hget, hsucc, hbody, hparse] at hr
          | some pl =>
            cases hhm : applyHeaderModified pl resp.lastModified with
            | error e =>
              simp [read_json, hs, hcf, hrem, hget, hsucc, hbody, hparse, hhm] at hr
            | ok pl1 =>
              refine Or.inr ⟨pl1, ?_⟩
              simp [read_json, hs, hcf, hrem, hget, hsucc, hbody, hparse, hhm] at hr
              exact hr.symm
      · cases hbody : resp.body with
        | error e => simp [read_json, hs, hcf, hrem, hget, hsucc, hbody] at hr
        | ok body =>
          simp [read_json, hs, hcf, hrem, hget, hsucc, hbody] at hr
          exact Or.inl hr.symm
  · by_cases hfile : env.isFile cf = true
    · cases hopen : env.openRead cf with
      | none => simp [read_json, hs, hcf, hrem, hfile, hopen] at hr
      | some contents =>
        cases hparse : env.parsePlaylist contents with
        | none => simp [read_json, hs, hcf, hrem, hfile, hopen, hparse] at hr
        | some pl =>
          refine Or.inr ⟨applyModified pl (env.modifiedTime cf), ?_⟩
          simp [read_json, hs, hcf, hrem, hfile, hopen, hparse] at hr
          exact hr.symm
    · simp [read_json, hs, hcf, hrem, hfile] at hr
      exact Or.inl hr.symm

/-- True when the modelled call aborted (a Rust panic) instead of
returning a value to the caller. -/
def aborts (r : Except String ReadResult) : Bool :=
  match r with
  | Except.error _ => true
  | Except.ok _ => false

/-! ## Claims C2, C3, C10 -/

/-- C2 (amended): a missing local file and a transport-level GET failure
always make `read_json` return a filler schedule — exactly one item with
`out = duration = 60`, `seek = 0`, `start_sec` equal to the fallback
start offset — with no error propagated; a non-success HTTP status does
the same provided reading the response body (done for the log line at
source line 103) succeeds.  When that body read fails, the call panics
instead (see the counterexample). -/
theorem absence_returns_filler (env : Env) (config : GlobalConfig) (path : Option String)
    (seek : Bool) (next_start : ℚ) (s : ℚ) (cf : String)
    (hs : config.playlist.start_sec = some s)
    (hcf : resolveSource env config path (env.getDate seek s next_start) = Except.ok cf)
    (habs : (env.isRemote cf = true ∧
               ((∃ e, env.httpGet cf = Except.error e) ∨
                (∃ resp body, env.httpGet cf = Except.ok resp ∧ resp.isSuccess = false ∧
                  resp.body = Except.ok body))) ∨
            (env.isRemote cf = false ∧ env.isFile cf = false)) :
    read_json env config path seek next_start =
      Except.ok { playlist := Playlist.new (env.getDate seek s next_start) s,
                  spawned := [] } ∧
    ∃ m, (Playlist.new (env.getDate seek s next_start) s).program = [m] ∧
      m.out = 60 ∧ m.duration = 60 ∧ m.seek = 0 ∧
      (Playlist.new (env.getDate seek s next_start) s).start_sec = some s :=
  ⟨read_json_fallback_eq env config path seek next_start s cf hs hcf habs,
   { Media.new 0 "" false with begin := some s, duration := DUMMY_LEN, out := DUMMY_LEN },
   rfl, rfl, rfl, rfl, rfl⟩

/-- Configuration used by the concrete witnesses. -/
def cfgSample : GlobalConfig :=
  { playlist := { path := "/playlists", start_sec := some 21600 } }

/-- Environment in which the local playlist file does not exist. -/
def envMissingLocal : Env :=
  { isDir := fun _ => false
    isFile := fun _ => false
    isRemote := fun _ => false
    httpGet := fun _ => Except.error "connection refused"
    openRead := fun _ => none
    parsePlaylist := fun _ => none
    modifiedTime := fun _ => none
    getDate := fun _ _ _ => "2024-01-01" }

theorem absence_returns_filler_witness :
    read_json envMissingLocal cfgSample none false 0 =
      Except.ok { playlist := Playlist.new (envMissingLocal.getDate false 21600 0) 21600,
                  spawned := [] } :=
  (absence_returns_filler envMissingLocal cfgSample none false 0 21600 "/playlists"
    rfl rfl (Or.inr ⟨rfl, rfl⟩)).1

/-- Environment in which the remote endpoint answers a non-success
status and reading the response body fails. -/
def envRemote500BodyFail : Env :=
  { isDir := fun _ => false
    isFile := fun _ => false
    isRemote := fun _ => true
    httpGet := fun _ =>
      Except.ok { isSuccess := false, body := Except.error "body read failed",
                  lastModified := none }
    openRead := fun _ => none
    parsePlaylist := fun _ => none
    modifiedTime := fun _ => none
    getDate := fun _ _ _ => "2024-01-01" }

/-- C2 counterexample: under the claim's non-success-HTTP-status
condition, when reading the response body fails, `read_json` panics at
the `resp.text().unwrap()` of source line 103 — it raises rather than
returning the filler schedule. -/
theorem non_success_body_unwrap_counterexample :
    read_json envRemote500BodyFail cfgSample none false 0 =
      Except.error "called Result.unwrap on an Err value" :=
  rfl

/-- C3: when the source is reachable but its content does not parse —
remote success with an unparsable body, or an existing local file that
fails to parse — the call aborts (panics) instead of returning a filler
schedule or an error value. -/
theorem parse_failure_aborts (env : Env) (config : GlobalConfig) (path : Option String)
    (seek : Bool) (next_start : ℚ) (s : ℚ) (cf : String)
    (hs : config.playlist.start_sec = some s)
    (hcf : resolveSource env config path (env.getDate seek s next_start) = Except.ok cf)
    (hmal : (env.isRemote cf = true ∧
              ∃ resp body, env.httpGet cf = Except.ok resp ∧ resp.isSuccess = true ∧
                resp.body = Except.ok body ∧ env.parsePlaylist body = none) ∨
            (env.isRemote cf = false ∧ env.isFile cf = true ∧
              ∃ contents, env.openRead cf = some contents ∧
                env.parsePlaylist contents = none)) :
    aborts (read_json env config path seek next_start) = true := by
  rcases hmal with ⟨hrem, resp, body, hget, hsucc, hbody, hparse⟩ |
    ⟨hrem, hfile, contents, hopen, hparse⟩
  · simp [read_json, hs, hcf, hrem, hget, hsucc, hbody, hparse, aborts]
  · simp [read_json, hs, hcf, hrem, hfile, hopen, hparse, aborts]

/-- Environment in which the remote endpoint answers 200 with a body
that does not parse as a playlist. -/
def envRemoteGarbage : Env :=
  { isDir := fun _ => false
    isFile := fun _ => false
    isRemote := fun _ => true
    httpGet := fun _ =>
      Except.ok { isSuccess := true, body := Except.ok "garbage", lastModified := none }
    openRead := fun _ => none
    parsePlaylist := fun _ => none
    modifiedTime := fun _ => none
    getDate := fun _ _ _ => "2024-01-01" }

theorem parse_failure_aborts_witness :
    aborts (read_json envRemoteGarbage cfgSample none false 0) = true :=
  parse_failure_aborts envRemoteGarbage cfgSample none false 0 21600 "/playlists" rfl rfl
    (Or.inl ⟨rfl, { isSuccess := true, body := Except.ok "garbage", lastModified := none },
      "garbage", rfl, rfl, rfl, rfl⟩)

/-- C10 (amended): on the missing-local-file and transport-error paths,
and on the non-success-status path whenever the body read done for the
log line succeeds, `read_json` returns exactly `Playlist.new date
start_sec` immediately: the annotation loop is never applied to the
filler item — its `index`, `last_ad`, `next_ad`, `process` and `filter`
keep the values `Media::new(0, "", false)` gave them, and `modified` is
`some ""` rather than absent — and no validator is spawned.  When the
non-success body read fails the call instead panics at source line 103
(see the counterexample). -/
theorem fallback_is_unannotated_playlist_new (env : Env) (config : GlobalConfig)
    (path : Option String) (seek : Bool) (next_start : ℚ) (s : ℚ) (cf : String)
    (hs : config.playlist.start_sec = some s)
    (hcf : resolveSource env config path (env.getDate seek s next_start) = Except.ok cf)
    (habs : (env.isRemote cf = true ∧
               ((∃ e, env.httpGet cf = Except.error e) ∨
                (∃ resp body, env.httpGet cf = Except.ok resp ∧ resp.isSuccess = false ∧
                  resp.body = Except.ok body))) ∨
            (env.isRemote cf = false ∧ env.isFile cf = false)) :
    read_json env config path seek next_start =
      Except.ok { playlist := Playlist.new (env.getDate seek s next_start) s,
                  spawned := [] } ∧
    (Playlist.new (env.getDate seek s next_start) s).program =
      [{ Media.new 0 "" false with
          begin := some s, duration := DUMMY_LEN, out := DUMMY_LEN }] ∧
    (Playlist.new (env.getDate seek s next_start) s).modified = some "" :=
  ⟨read_json_fallback_eq env config path seek next_start s cf hs hcf habs, rfl, rfl⟩

/-- Environment in which the remote endpoint answers with a non-success
status. -/
def envRemote500 : Env :=
  { isDir := fun _ => false
    isFile := fun _ => false
    isRemote := fun _ => true
    httpGet := fun _ =>
      Except.ok { isSuccess := false, body := Except.ok "500", lastModified := none }
    openRead := fun _ => none
    parsePlaylist := fun _ => none
    modifiedTime := fun _ => none
    getDate := fun _ _ _ => "2024-01-01" }

theorem fallback_is_unannotated_playlist_new_witness :
    read_json envRemote500 cfgSample none false 0 =
      Except.ok { playlist := Playlist.new (envRemote500.getDate false 21600 0) 21600,
                  spawned := [] } :=
  (fallback_is_unannotated_playlist_new envRemote500 cfgSample none false 0 21600
    "/playlists" rfl rfl
    (Or.inl ⟨rfl, Or.inr
      ⟨{ isSuccess := false, body := Except.ok "500", lastModified := none },
        "500", rfl, rfl, rfl⟩⟩)).1

/-- C10 counterexample: on the non-success-status fallback path with a
failing body read, `read_json` aborts at the line-103 unwrap rather
than returning `Playlist.new date start_sec`. -/
theorem fallback_status_branch_aborts_counterexample :
    aborts (read_json envRemote500BodyFail cfgSample none false 0) = true ∧
    read_json envRemote500BodyFail cfgSample none false 0 ≠
      Except.ok { playlist := Playlist.new "2024-01-01" 21600, spawned := [] } :=
  ⟨rfl, fun h => Except.noConfusion h⟩

/-! ## Claims C6, C7, C8, C9 -/

/-- A remote/local source whose JSON parses to an empty `program`. -/
def plParsedEmpty : Playlist :=
  { date := "2024-01-01"
    start_sec := none
    current_file := none
    modified := none
    program := [] }

/-- Environment in which the local playlist file exists and parses to a
playlist with an empty `program` array. -/
def envEmptyProgram : Env :=
  { isDir := fun _ => false
    isFile := fun _ => true
    isRemote := fun _ => false
    httpGet := fun _ => Except.error "offline"
    openRead := fun _ => some "\x7b\x7d"
    parsePlaylist := fun _ => some plParsedEmpty
    modifiedTime := fun _ => none
    getDate := fun _ _ _ => "2024-01-01" }

/-- The playlist `read_json` returns in `envEmptyProgram`. -/
def plLoadedEmpty : Playlist :=
  { date := "2024-01-01"
    start_sec := some 21600
    current_file := some "/playlists"
    modified := none
    program := [] }

/-- C6 counterexample: a source whose `program` parses as empty loads
successfully and `read_json` returns an empty items list — refuting
"the items sequence is non-empty for every returned playlist". -/
theorem empty_program_load_counterexample :
    read_json envEmptyProgram cfgSample none false 0 =
      Except.ok { playlist := plLoadedEmpty, spawned := [plLoadedEmpty] } ∧
    plLoadedEmpty.program = [] :=
  ⟨rfl, rfl⟩

/-- C6 amended: the fallback result has exactly one (filler) item, and a
successful load returns exactly as many items as the parsed playlist's
`program` — which may be zero. -/
theorem items_count_after_load (env : Env) (config : GlobalConfig) (path : Option String)
    (seek : Bool) (next_start : ℚ) (s : ℚ) (cf : String) (r : ReadResult)
    (hs : config.playlist.start_sec = some s)
    (hcf : resolveSource env config path (env.getDate seek s next_start) = Except.ok cf)
    (hr : read_json env config path seek next_start = Except.ok r) :
    r.playlist.program.length = 1 ∨
    ∃ pl, r = finish pl cf s ∧ r.playlist.program.length = pl.program.length := by
  rcases read_json_cases env config path seek next_start s cf r hs hcf hr with h | ⟨pl, h⟩
  · left
    subst h
    rfl
  · right
    exact ⟨pl, h, by subst h; simp [finish, length_annotateFrom]⟩

theorem items_count_after_load_witness :
    ({ playlist := Playlist.new "2024-01-01" 21600, spawned := [] } :
        ReadResult).playlist.program.length = 1 ∨
    ∃ pl, ({ playlist := Playlist.new "2024-01-01" 21600, spawned := [] } : ReadResult) =
        finish pl "/playlists" 21600 ∧
      ({ playlist := Playlist.new "2024-01-01" 21600, spawned := [] } :
          ReadResult).playlist.program.length = pl.program.length :=
  items_count_after_load envMissingLocal cfgSample none false 0 21600 "/playlists"
    { playlist := Playlist.new "2024-01-01" 21600, spawned := [] } rfl rfl rfl

/-- C7 counterexample: on the fallback path the returned schedule has
`current_file = none` — refuting "source_identifier is populated on
every path". -/
theorem fallback_no_source_identifier_counterexample :
    read_json envMissingLocal cfgSample none false 0 =
      Except.ok { playlist := Playlist.new "2024-01-01" 21600, spawned := [] } ∧
    (Playlist.new "2024-01-01" 21600).current_file = none :=
  ⟨rfl, rfl⟩

/-- C7 amended: every schedule returned by `read_json` has `start_sec`
populated; `current_file` is populated on the successful-load path but
absent (`none`) on the fallback path. -/
theorem start_sec_populated_source_on_success (env : Env) (config : GlobalConfig)
    (path : Option String) (seek : Bool) (next_start : ℚ) (s : ℚ) (cf : String)
    (r : ReadResult)
    (hs : config.playlist.start_sec = some s)
    (hcf : resolveSource env config path (env.getDate seek s next_start) = Except.ok cf)
    (hr : read_json env config path seek next_start = Except.ok r) :
    r.playlist.start_sec = some s ∧
    (r.playlist.current_file = some cf ∨
      (r = { playlist := Playlist.new (env.getDate seek s next_start) s, spawned := [] } ∧
        r.playlist.current_file = none)) := by
  rcases read_json_cases env config path seek next_start s cf r hs hcf hr with h | ⟨pl, h⟩
  · subst h
    exact ⟨rfl, Or.inr ⟨rfl, rfl⟩⟩
  · subst h
    exact ⟨rfl, Or.inl rfl⟩

theorem start_sec_populated_source_on_success_witness :
    ({ playlist := plLoadedEmpty, spawned := [plLoadedEmpty] } :
        ReadResult).playlist.start_sec = some 21600 ∧
    (({ playlist := plLoadedEmpty, spawned := [plLoadedEmpty] } :
        ReadResult).playlist.current_file = some "/playlists" ∨
      (({ playlist := plLoadedEmpty, spawned := [plLoadedEmpty] } : ReadResult) =
          { playlist := Playlist.new (envEmptyProgram.getDate false 21600 0) 21600,
            spawned := [] } ∧
        ({ playlist := plLoadedEmpty, spawned := [plLoadedEmpty] } :
            ReadResult).playlist.current_file = none)) :=
  start_sec_populated_source_on_success envEmptyProgram cfgSample none false 0 21600
    "/playlists" { playlist := plLoadedEmpty, spawned := [plLoadedEmpty] } rfl rfl rfl

/-- C8: whenever `read_json` dispatches a validator, the value handed
over is the finished annotated playlist itself — an independent copy
equal to the returned one — so applying any mutation to the dispatched
copy leaves the returned playlist unchanged. -/
theorem validator_gets_independent_copy (env : Env) (config : GlobalConfig)
    (path : Option String) (seek : Bool) (next_start : ℚ) (s : ℚ) (cf : String)
    (r : ReadResult)
    (hs : config.playlist.start_sec = some s)
    (hcf : resolveSource env config path (env.getDate seek s next_start) = Except.ok cf)
    (hr : read_json env config path seek next_start = Except.ok r)
    (hne : r.spawned ≠ []) :
    r.spawned = [r.playlist] ∧
    ∀ f : Playlist → Playlist,
      ({ playlist := r.playlist, spawned := r.spawned.map f } : ReadResult).playlist =
        r.playlist := by
  rcases read_json_cases env config path seek next_start s cf r hs hcf hr with h | ⟨pl, h⟩
  · subst h
    exact absurd rfl hne
  · subst h
    exact ⟨rfl, fun f => rfl⟩

theorem validator_gets_independent_copy_witness :
    ({ playlist := plLoadedEmpty, spawned := [plLoadedEmpty] } : ReadResult).spawned =
      [({ playlist := plLoadedEmpty, spawned := [plLoadedEmpty] } : ReadResult).playlist] :=
  (validator_gets_independent_copy envEmptyProgram cfgSample none false 0 21600
    "/playlists" { playlist := plLoadedEmpty, spawned := [plLoadedEmpty] } rfl rfl rfl
    (by simp)).1

/-- C9 counterexample: a call that resolves to the filler schedule
returns with zero validator dispatches — refuting "every call spawns
exactly one concurrent unit of work". -/
theorem fallback_spawns_none_counterexample :
    (read_json envMissingLocal cfgSample none false 0).map (fun r => r.spawned.length) =
      Except.ok 0 ∧
    (Except.ok 0 : Except String Nat) ≠ Except.ok 1 :=
  ⟨rfl, by simp⟩

/-- C9 amended: exactly one validator dispatch happens per successfully
parsed load; calls that resolve to the filler schedule dispatch none. -/
theorem spawn_count_per_load (env : Env) (config : GlobalConfig) (path : Option String)
    (seek : Bool) (next_start : ℚ) (s : ℚ) (cf : String) (r : ReadResult)
    (hs : config.playlist.start_sec = some s)
    (hcf : resolveSource env config path (env.getDate seek s next_start) = Except.ok cf)
    (hr : read_json env config path seek next_start = Except.ok r) :
    (r = { playlist := Playlist.new (env.getDate seek s next_start) s, spawned := [] } ∧
      r.spawned.length = 0) ∨
    (∃ pl, r = finish pl cf s ∧ r.spawned.length = 1) := by
  rcases read_json_cases env config path seek next_start s cf r hs hcf hr with h | ⟨pl, h⟩
  · exact Or.inl ⟨h, by subst h; rfl⟩
  · exact Or.inr ⟨pl, h, by subst h; rfl⟩

theorem spawn_count_per_load_witness :
    (({ playlist := plLoadedEmpty, spawned := [plLoadedEmpty] } : ReadResult) =
        { playlist := Playlist.new (envEmptyProgram.getDate false 21600 0) 21600,
          spawned := [] } ∧
      ({ playlist := plLoadedEmpty, spawned := [plLoadedEmpty] } :
          ReadResult).spawned.length = 0) ∨
    (∃ pl, ({ playlist := plLoadedEmpty, spawned := [plLoadedEmpty] } : ReadResult) =
        finish pl "/playlists" 21600 ∧
      ({ playlist := plLoadedEmpty, spawned := [plLoadedEmpty] } :
          ReadResult).spawned.length = 1) :=
  spawn_count_per_load envEmptyProgram cfgSample none false 0 21600 "/playlists"
    { playlist := plLoadedEmpty, spawned := [plLoadedEmpty] } rfl rfl rfl

/-! ## Claim C5: date-based path resolution -/

theorem string_eq_of_data_eq (s t : String) (h : s.data = t.data) : s = t := by
  cases s
  cases t
  cases h
  rfl

theorem splitOnChar_append (sep : Char) (a rest : List Char) (ha : sep ∉ a) :
    splitOnChar sep (a ++ sep :: rest) = a :: splitOnChar sep rest := by
  induction a with
  | nil => simp [splitOnChar]
  | cons c a' ih =>
    have hc : ¬(c = sep) := by
      intro h
      exact ha (by simp [h])
    have ha' : sep ∉ a' := by
      intro h
      exact ha (by simp [h])
    simp [splitOnChar, hc, ih ha']

theorem mem_of_getLast?_eq (l : List Char) (a : Char) (h : l.getLast? = some a) :
    a ∈ l := by
  obtain ⟨hne, heq⟩ := List.mem_getLast?_eq_getLast (Option.mem_def.mpr h)
  rw [heq]
  exact List.getLast_mem hne

theorem getLast?_append_cons (l1 : List Char) (c : Char) (l2 : List Char) :
    (l1 ++ c :: l2).getLast? = (c :: l2).getLast? := by
  rw [List.getLast?_append]
  rw [List.getLast?_eq_getLast_of_ne_nil (l := c :: l2) (by simp)]
  rfl

theorem getLast?_ne_slash_of_append (l1 : List Char) (c : Char) (l2 : List Char)
    (h1 : l2 ≠ []) (h2 : '/' ∉ l2) : (l1 ++ c :: l2).getLast? ≠ some '/' := by
  intro hbad
  rw [getLast?_append_cons] at hbad
  rcases l2 with _ | ⟨c2, l2'⟩
  · exact h1 rfl
  · rw [List.getLast?_cons_cons] at hbad
    exact h2 (mem_of_getLast?_eq _ _ hbad)

theorem pathJoin_data (a b : String) (h1 : a.data ≠ []) (h2 : a.data.getLast? ≠ some '/') :
    (pathJoin a b).data = a.data ++ '/' :: b.data := by
  unfold pathJoin
  rw [if_neg h1, if_neg h2]

theorem findStemRev_no_dot (cs ds : List Char) (h : '.' ∉ cs) :
    findStemRev (cs ++ '/' :: ds) = none := by
  induction cs with
  | nil => simp [findStemRev]
  | cons c cs' ih =>
    have hc : ¬(c = '.') := by
      intro hh
      exact h (by simp [hh])
    have h' : '.' ∉ cs' := by
      intro hh
      exact h (by simp [hh])
    by_cases hslash : c = '/'
    · simp [findStemRev, hslash]
    · simp [findStemRev, hslash, hc, ih h']

/-- `resolveLocalPath` on a well-formed `YYYY-MM-DD` date equals
`root/year/month/date.json`. -/
theorem resolveLocalPath_eq (root y m d : String)
    (hr1 : root.data ≠ []) (hr2 : root.data.getLast? ≠ some '/')
    (hy1 : y.data ≠ []) (hy2 : '-' ∉ y.data) (hy3 : '/' ∉ y.data)
    (hm1 : m.data ≠ []) (hm2 : '-' ∉ m.data) (hm3 : '/' ∉ m.data)
    (hnodot : '.' ∉ (y ++ "-" ++ m ++ "-" ++ d).data) :
    resolveLocalPath root (y ++ "-" ++ m ++ "-" ++ d) =
      Except.ok (root ++ "/" ++ y ++ "/" ++ m ++ "/" ++ (y ++ "-" ++ m ++ "-" ++ d)
        ++ ".json") := by
  have hD : (y ++ "-" ++ m ++ "-" ++ d).data
      = y.data ++ '-' :: (m.data ++ '-' :: d.data) := by
    simp [String.data_append]
  have hsplit : splitOnChar '-' (y ++ "-" ++ m ++ "-" ++ d).data
      = y.data :: m.data :: splitOnChar '-' d.data := by
    rw [hD, splitOnChar_append '-' y.data _ hy2, splitOnChar_append '-' m.data _ hm2]
  have hJ1 : (pathJoin root y).data = root.data ++ '/' :: y.data :=
    pathJoin_data root y hr1 hr2
  have hne1 : (pathJoin root y).data ≠ [] := by
    rw [hJ1]
    simp
  have hlast1 : (pathJoin root y).data.getLast? ≠ some '/' := by
    rw [hJ1]
    exact getLast?_ne_slash_of_append root.data '/' y.data hy1 hy3
  have hJ2 : (pathJoin (pathJoin root y) m).data
      = (root.data ++ '/' :: y.data) ++ '/' :: m.data := by
    rw [pathJoin_data _ m hne1 hlast1, hJ1]
  have hne2 : (pathJoin (pathJoin root y) m).data ≠ [] := by
    rw [hJ2]
    simp
  have hlast2 : (pathJoin (pathJoin root y) m).data.getLast? ≠ some '/' := by
    rw [hJ2]
    exact getLast?_ne_slash_of_append _ '/' m.data hm1 hm3
  have hJ3 : (pathJoin (pathJoin (pathJoin root y) m) (y ++ "-" ++ m ++ "-" ++ d)).data
      = ((root.data ++ '/' :: y.data) ++ '/' :: m.data) ++ '/'
          :: (y ++ "-" ++ m ++ "-" ++ d).data := by
    rw [pathJoin_data _ _ hne2 hlast2, hJ2]
  have hrev : (pathJoin (pathJoin (pathJoin root y) m)
        (y ++ "-" ++ m ++ "-" ++ d)).data.reverse
      = (y ++ "-" ++ m ++ "-" ++ d).data.reverse
          ++ '/' :: ((root.data ++ '/' :: y.data) ++ '/' :: m.data).reverse := by
    rw [hJ3]
    simp
  have hstem : findStemRev (pathJoin (pathJoin (pathJoin root y) m)
        (y ++ "-" ++ m ++ "-" ++ d)).data.reverse = none := by
    rw [hrev]
    refine findStemRev_no_dot _ _ ?_
    intro hx
    exact hnodot (List.mem_reverse.mp hx)
  have hwx : (withExtension (pathJoin (pathJoin (pathJoin root y) m)
        (y ++ "-" ++ m ++ "-" ++ d)) "json").data
      = (pathJoin (pathJoin (pathJoin root y) m) (y ++ "-" ++ m ++ "-" ++ d)).data
          ++ '.' :: ['j', 's', 'o', 'n'] := by
    unfold withExtension
    rw [hstem]
    simp
  unfold resolveLocalPath
  rw [hsplit]
  rw [if_pos (by simp)]
  refine congrArg Except.ok ?_
  refine string_eq_of_data_eq _ _ ?_
  show (withExtension (pathJoin (pathJoin (pathJoin root y) m)
      (y ++ "-" ++ m ++ "-" ++ d)) "json").data
    = (root ++ "/" ++ y ++ "/" ++ m ++ "/" ++ (y ++ "-" ++ m ++ "-" ++ d) ++ ".json").data
  rw [hwx, hJ3]
  have hsl : ("/" : String).data = ['/'] := rfl
  have hjs : (".json" : String).data = ['.', 'j', 's', 'o', 'n'] := rfl
  simp [String.data_append, hsl, hjs]

/-- C5: for a well-formed `YYYY-MM-DD` date, when the configured storage
root is a directory and no override path is supplied, the resolved
source path equals `root/year/month/date.json`, where year and month are
the first and second `-`-separated components of the date. -/
theorem resolver_directory_layout (env : Env) (config : GlobalConfig) (y m d : String)
    (hdir : env.isDir config.playlist.path = true)
    (hr1 : config.playlist.path.data ≠ [])
    (hr2 : config.playlist.path.data.getLast? ≠ some '/')
    (hy1 : y.data ≠ []) (hy2 : '-' ∉ y.data) (hy3 : '/' ∉ y.data)
    (hm1 : m.data ≠ []) (hm2 : '-' ∉ m.data) (hm3 : '/' ∉ m.data)
    (hnodot : '.' ∉ (y ++ "-" ++ m ++ "-" ++ d).data) :
    resolveSource env config none (y ++ "-" ++ m ++ "-" ++ d) =
      Except.ok (config.playlist.path ++ "/" ++ y ++ "/" ++ m ++ "/"
        ++ (y ++ "-" ++ m ++ "-" ++ d) ++ ".json") := by
  unfold resolveSource
  rw [if_pos hdir]
  rw [resolveLocalPath_eq config.playlist.path y m d hr1 hr2 hy1 hy2 hy3 hm1 hm2 hm3
    hnodot]
  rfl

/-- Environment whose storage root is a directory. -/
def envDirStore : Env :=
  { isDir := fun _ => true
    isFile := fun _ => false
    isRemote := fun _ => false
    httpGet := fun _ => Except.error "offline"
    openRead := fun _ => none
    parsePlaylist := fun _ => none
    modifiedTime := fun _ => none
    getDate := fun _ _ _ => "2024-01-05" }

def cfgStore : GlobalConfig :=
  { playlist := { path := "/store", start_sec := some 0 } }

theorem resolver_directory_layout_witness :
    resolveSource envDirStore cfgStore none ("2024" ++ "-" ++ "01" ++ "-" ++ "05") =
      Except.ok ("/store" ++ "/" ++ "2024" ++ "/" ++ "01" ++ "/"
        ++ ("2024" ++ "-" ++ "01" ++ "-" ++ "05") ++ ".json") :=
  resolver_directory_layout envDirStore cfgStore "2024" "01" "05" rfl (by decide)
    (by decide) (by decide) (by decide) (by decide) (by decide) (by decide) (by decide)
    (by decide)
